import Mathlib

/-!
Shallow embedding of the Polly orchestrator class from
src/packages/@pollyjs/core/src/polly.ts.

Pure functions become Lean functions; the mutable instance state becomes a
PollyState record threaded explicitly; asynchronous methods that can reject
return an Except whose error side carries both the thrown error and the state
at the moment of the throw, because a thrown JavaScript exception does not
roll back mutations already performed. External collaborators that live
outside src (the MODES constant, assert, the container, mergeConfigs, the
event emitter, the PollyRequest completion promise) are modelled from the
spec; each such definition carries a doc comment saying so.
-/

/-- Modelled from the spec: the MODES constant of the external utils package
(not under src). The spec lists the four modes RECORD, REPLAY, PASSTHROUGH,
STOPPED, stored case-normalized; the source compares against the uppercase
names (the constructor default is mode REPLAY in uppercase). -/
def MODES : List String := ["RECORD", "REPLAY", "PASSTHROUGH", "STOPPED"]

/-- Eventual settlement of a completion promise: the environment decides
whether a tracked request's underlying operation succeeds or fails. -/
inductive Outcome
  | resolved
  | rejected
deriving DecidableEq

/-- A tracked request (PollyRequest): identity plus the eventual settlement of
its completion signal. Modelled from the spec: the PollyRequest class is not
under src; the spec describes a TrackedRequest as data plus a completion
signal, created once per observed request. -/
structure TrackedRequest where
  rid : Nat
  outcome : Outcome
deriving DecidableEq

/-- A plugin factory (FactoryFn): a capability tag (adapter or persister),
a derived name, and — for persister factories — whether the persist operation
of instances it constructs rejects. Modelled from the spec where it concerns
the container key derivation (capability-qualified name). -/
structure FactoryFn where
  capability : String
  fname : String
  persistFails : Bool := false
deriving DecidableEq

/-- The string-or-factory argument shape several methods dispatch on. -/
inductive NameOrFactory
  | byName (n : String)
  | byFactory (f : FactoryFn)
deriving DecidableEq

/-- Resolves the adapter or persister identifier the way the source does:
a string is used as is, a factory contributes its name. -/
def resolveName : NameOrFactory → String
  | NameOrFactory.byName n => n
  | NameOrFactory.byFactory f => f.fname

/-- The structured text of the assertion messages thrown by polly.ts. -/
inductive VMsg
  | invalidMode
  | configureAfterRequests
  | configureWhileStopped
  | adapterNotRegistered (nm : String)
  | persisterNotRegistered (nm : String)
deriving DecidableEq

/-- The literal message strings of the source, one per VMsg constructor. -/
def vmsgText : VMsg → String
  | VMsg.invalidMode => "Invalid mode provided."
  | VMsg.configureAfterRequests =>
      "Cannot call `configure` once requests have been handled."
  | VMsg.configureWhileStopped =>
      "Cannot call `configure` on an instance of Polly that is not running."
  | VMsg.adapterNotRegistered nm =>
      "Adapter matching the name `" ++ nm ++ "` was not registered."
  | VMsg.persisterNotRegistered nm =>
      "Persister matching the name `" ++ nm ++ "` was not registered."

/-- The errors the embedded methods can throw. `validation` is an assert
failure (modelled from the spec: assert from the external utils package
throws a validation error carrying the message when its condition is false);
`refError` is the JavaScript ReferenceError raised when an undeclared
identifier is evaluated; `persistenceFailure` is a rejected persist;
`requestFailure` is a rejected request completion. -/
inductive PErr
  | validation (m : VMsg)
  | refError (nm : String)
  | persistenceFailure
  | requestFailure
deriving DecidableEq

/-- One visible side effect on an external collaborator, in the order
performed: adapter connect and disconnect hooks, the logger disconnect, the
persist call, and the broadcast of the stop event. -/
inductive Ev
  | adapterConnect (nm : String) (iid : Nat)
  | adapterDisconnect (nm : String) (iid : Nat)
  | loggerDisconnect
  | persistCall (iid : Nat)
  | stopEmit
deriving DecidableEq

/-- A running persister instance: its identity and the behavior of its
persist operation (taken from the factory that constructed it). -/
structure PersisterInst where
  iid : Nat
  persistFails : Bool
deriving DecidableEq

/-- The resolved configuration held in `this.config` after a configure:
a mode string, the ordered adapter list, and the optional persister entry. -/
structure PollyConfig where
  mode : String
  adapters : List NameOrFactory
  persister : Option NameOrFactory
deriving DecidableEq

/-- One layer of a configuration merge: a partial PollyConfig where an absent
field means the layer does not define that key. -/
structure ConfigLayer where
  mode : Option String := none
  adapters : Option (List NameOrFactory) := none
  persister : Option NameOrFactory := none
deriving DecidableEq

/-- Modelled from the spec: the built-in DefaultConfig (defaults/config is not
under src). The spec gives default mode REPLAY; no adapters and no persister
are configured by default. -/
def DefaultConfig : PollyConfig :=
  { mode := "REPLAY", adapters := [], persister := none }

/-- Views a resolved configuration as a merge layer in which every present
field is defined. -/
def cfgLayerOf (c : PollyConfig) : ConfigLayer :=
  { mode := some c.mode, adapters := some c.adapters, persister := c.persister }

/-- Modelled from the spec: mergeConfigs (utils/merge-configs is not under
src). Layered merge default, then previous, then newly supplied, later layers
winning on scalars; lists are replaced wholesale by the most specific layer
that defines them. -/
def mergeConfigs (d : PollyConfig) (prev nw : ConfigLayer) : PollyConfig :=
  { mode := (nw.mode.getD (prev.mode.getD d.mode))
    adapters := (nw.adapters.getD (prev.adapters.getD d.adapters))
    persister :=
      match nw.persister with
      | some p => some p
      | none =>
        match prev.persister with
        | some p => some p
        | none => d.persister }

/-- Modelled from the spec: the per-instance container (not under src) maps a
capability-qualified key, capability then a colon then the name, to a factory.
Membership test by that composite key. -/
def containerHas (c : List FactoryFn) (key : String) : Bool :=
  c.any (fun f => (f.capability ++ ":" ++ f.fname) == key)

/-- Modelled from the spec: container registration adds the factory under its
derived key, replacing any factory previously stored under that key. -/
def containerRegister (c : List FactoryFn) (f : FactoryFn) : List FactoryFn :=
  (c.filter (fun g =>
    !((g.capability ++ ":" ++ g.fname) == (f.capability ++ ":" ++ f.fname)))) ++ [f]

/-- Modelled from the spec: container lookup by composite key. -/
def containerLookup (c : List FactoryFn) (key : String) : Option FactoryFn :=
  c.find? (fun f => (f.capability ++ ":" ++ f.fname) == key)

/-- The mutable state of one Polly instance: the resolved config, the
container, the running adapter instances keyed by name in insertion order,
the persister slot, the tracked requests, the paused-mode snapshot, a fresh
identity counter for constructed instances and requests, and the trace of
side effects on collaborators. -/
structure PollyState where
  config : PollyConfig
  container : List FactoryFn
  adapters : List (String × Nat)
  persister : Option PersisterInst
  requests : List TrackedRequest
  pausedMode : Option String
  nextId : Nat
  events : List Ev
deriving DecidableEq

/-- Result of a method that can throw: the error side carries the state at
the moment of the throw, since a JavaScript exception does not undo
mutations already made. -/
abbrev PRes := Except (PErr × PollyState) PollyState

/-- The state a method run left behind, whether it returned or threw. -/
def stateOf : PRes → PollyState
  | Except.ok s => s
  | Except.error e => e.2

/-- Embeds the `set mode` accessor of polly.ts, lines 112 to 123. Its body
computes possibleModes and then evaluates the identifier `uppercaseMode`
three times (inside the assertion message template, inside the membership
test, and on the right of the assignment to config.mode), but no declaration
of `uppercaseMode` exists anywhere in the file. The first evaluation of the
undeclared identifier — inside the template literal built as the first
argument of assert — raises a ReferenceError before the assertion can be
tested or the assignment can run, for every argument value, so the state is
returned unchanged alongside the error. -/
def setMode (s : PollyState) (m : String) : PRes :=
  let possibleModes := MODES
  let _ := possibleModes
  let _ := m
  Except.error (PErr.refError "uppercaseMode", s)

/-- Embeds `record()`: assigns MODES.RECORD through the mode setter. -/
def record (s : PollyState) : PRes :=
  setMode s "RECORD"

/-- Embeds `replay()`: assigns MODES.REPLAY through the mode setter. -/
def replay (s : PollyState) : PRes :=
  setMode s "REPLAY"

/-- Embeds `pause()`: saves the current mode into the paused-mode slot, then
assigns MODES.PASSTHROUGH through the mode setter. -/
def pause (s : PollyState) : PRes :=
  let s1 := { s with pausedMode := some s.config.mode }
  setMode s1 "PASSTHROUGH"

/-- Embeds `play()`: when the paused-mode slot is truthy (a nonempty string),
assigns the snapshot through the mode setter and deletes the slot; otherwise
does nothing. -/
def play (s : PollyState) : PRes :=
  match s.pausedMode with
  | none => Except.ok s
  | some m =>
    if m = "" then Except.ok s
    else
      match setMode s m with
      | Except.ok s1 => Except.ok { s1 with pausedMode := none }
      | Except.error e => Except.error e

/-- Looks up the running adapter instance stored under a name. -/
def lookupAdapter (l : List (String × Nat)) (nm : String) : Option Nat :=
  (l.find? (fun p => p.1 == nm)).map (fun p => p.2)

/-- Embeds `disconnectFrom(nameOrFactory)`: resolves the identifier; when an
instance exists under it, invokes its disconnect hook and removes it from the
adapter map, else does nothing. Never throws. -/
def disconnectFrom (s : PollyState) (nf : NameOrFactory) : PollyState :=
  let nm := resolveName nf
  match lookupAdapter s.adapters nm with
  | none => s
  | some iid =>
    { s with
      events := s.events ++ [Ev.adapterDisconnect nm iid]
      adapters := s.adapters.filter (fun p => !(p.1 == nm)) }

/-- Embeds `disconnect()`: disconnects every currently connected adapter in
insertion order. -/
def disconnect (s : PollyState) : PollyState :=
  s.adapters.foldl (fun acc p => disconnectFrom acc (NameOrFactory.byName p.1)) s

/-- Embeds `connectTo(nameOrFactory)`: a factory argument is registered first
and contributes its name; asserts that an adapter factory is registered under
the composite key, else throws the lookup assertion; unconditionally
disconnects any existing instance under the identifier; constructs a fresh
instance, invokes its connect hook, and stores it under the identifier. -/
def connectTo (s : PollyState) (nf : NameOrFactory) : PRes :=
  let s0 :=
    match nf with
    | NameOrFactory.byFactory f => { s with container := containerRegister s.container f }
    | NameOrFactory.byName _ => s
  let nm := resolveName nf
  if containerHas s0.container ("adapter:" ++ nm) then
    let s1 := disconnectFrom s0 nf
    let iid := s1.nextId
    let s2 := { s1 with nextId := iid + 1 }
    let s3 := { s2 with events := s2.events ++ [Ev.adapterConnect nm iid] }
    Except.ok { s3 with adapters := s3.adapters ++ [(nm, iid)] }
  else
    Except.error (PErr.validation (VMsg.adapterNotRegistered nm), s0)

/-- The forEach loop of `configure` over the merged adapter list: connects to
each entry in list order, stopping at the first thrown assertion. -/
def connectAll : PollyState → List NameOrFactory → PRes
  | s, [] => Except.ok s
  | s, a :: rest =>
    match connectTo s a with
    | Except.ok s1 => connectAll s1 rest
    | Except.error e => Except.error e

/-- Constructs a fresh persister instance from a factory and stores it in the
persister slot, replacing any previous instance. -/
def instantiatePersister (s : PollyState) (f : FactoryFn) : PollyState :=
  { s with
    nextId := s.nextId + 1
    persister := some { iid := s.nextId, persistFails := f.persistFails } }

/-- The persister block at the end of `configure`: a falsy entry
(absent, or an empty name string) is skipped; a factory entry is always
truthy, is registered first and contributes its name; then the block asserts
that a persister factory is registered under the composite key, else throws
the lookup assertion; otherwise it constructs a fresh instance and stores it
in the persister slot, replacing any previous instance. -/
def handlePersister (s : PollyState) : Option NameOrFactory → PRes
  | none => Except.ok s
  | some (NameOrFactory.byName n) =>
    if n = "" then Except.ok s
    else
      match containerLookup s.container ("persister:" ++ n) with
      | some f => Except.ok (instantiatePersister s f)
      | none =>
        Except.error (PErr.validation (VMsg.persisterNotRegistered n), s)
  | some (NameOrFactory.byFactory f) =>
    let s0 := { s with container := containerRegister s.container f }
    match containerLookup s0.container ("persister:" ++ f.fname) with
    | some g => Except.ok (instantiatePersister s0 g)
    | none =>
      Except.error (PErr.validation (VMsg.persisterNotRegistered f.fname), s0)

/-- The effectful tail of `configure` after the merge: connects to every
entry of the merged adapter list in order, then resolves the merged persister
entry. -/
def configureMain (s2 : PollyState) (l : List NameOrFactory)
    (po : Option NameOrFactory) : PRes :=
  match connectAll s2 l with
  | Except.error e => Except.error e
  | Except.ok s3 => handlePersister s3 po

/-- Embeds `configure(config)`, lines 168 to 204: asserts no request has been
handled yet, then asserts the mode is not STOPPED (each failure throws its
validation message with no effect performed); then disconnects every adapter,
merges default, previous and supplied configuration, and runs the effectful
tail on the merged configuration. -/
def configure (s : PollyState) (cfg : ConfigLayer) : PRes :=
  if ¬ (s.requests.length = 0) then
    Except.error (PErr.validation VMsg.configureAfterRequests, s)
  else if s.config.mode = "STOPPED" then
    Except.error (PErr.validation VMsg.configureWhileStopped, s)
  else
    let s1 := disconnect s
    let merged := mergeConfigs DefaultConfig (cfgLayerOf s1.config) cfg
    let s2 := { s1 with config := merged }
    configureMain s2 merged.adapters merged.persister

/-- Embeds `stop()`, lines 246 to 255: a no-op when the mode is already
STOPPED; otherwise disconnects all adapters, disconnects the logger, awaits
the persist operation when a persister instance exists (a rejection
propagates at this point, with all earlier effects kept), then assigns
MODES.STOPPED through the mode setter, then broadcasts the stop event. -/
def stop (s : PollyState) : PRes :=
  if s.config.mode = "STOPPED" then Except.ok s
  else
    let s1 := disconnect s
    let s2 := { s1 with events := s1.events ++ [Ev.loggerDisconnect] }
    let persisted : PRes :=
      match s2.persister with
      | none => Except.ok s2
      | some p =>
        let s3 := { s2 with events := s2.events ++ [Ev.persistCall p.iid] }
        if p.persistFails then Except.error (PErr.persistenceFailure, s3)
        else Except.ok s3
    match persisted with
    | Except.error e => Except.error e
    | Except.ok s4 =>
      match setMode s4 "STOPPED" with
      | Except.error e => Except.error e
      | Except.ok s5 => Except.ok { s5 with events := s5.events ++ [Ev.stopEmit] }

/-- Embeds `registerRequest(request)`: wraps the data into a fresh
TrackedRequest, appends it to the request sequence, and returns it. The
Outcome argument is the environment's choice of how the completion signal of
this request eventually settles. -/
def registerRequest (s : PollyState) (d : Outcome) : PollyState × TrackedRequest :=
  let r : TrackedRequest := { rid := s.nextId, outcome := d }
  ({ s with requests := s.requests ++ [r], nextId := s.nextId + 1 }, r)

/-- The then(NOOP, NOOP) wrapper inside `flush`: both the fulfilled and the
rejected branch run the no-op, so the wrapped promise always resolves. -/
def settleWithNoop : Outcome → Outcome
  | Outcome.resolved => Outcome.resolved
  | Outcome.rejected => Outcome.resolved

/-- Promise.all over settlement outcomes: resolves when every entry resolved,
rejects when some entry rejected. -/
def promiseAll (os : List Outcome) : Except PErr Unit :=
  if os.all (fun o => o == Outcome.resolved) then Except.ok ()
  else Except.error PErr.requestFailure

/-- The set of requests one `flush()` call awaits: the request sequence as it
stands when the call begins. -/
def flushAwaits (s : PollyState) : List TrackedRequest := s.requests

/-- Embeds `flush()`, lines 257 to 265: awaits, via Promise.all, the
completion signal of every request present at call time, each wrapped in
then(NOOP, NOOP) so that the await covers both fulfilled and rejected
completions. -/
def flush (s : PollyState) : Except PErr Unit :=
  promiseAll ((flushAwaits s).map (fun r => settleWithNoop r.outcome))

/-- The memoized installation callback the static registration API stores per
factory identity: its own identity plus the factory it installs. -/
structure RegCallback where
  cid : Nat
  factory : FactoryFn
deriving DecidableEq

/-- The process-wide static state: the FACTORY_REGISTRATION memoization table,
the listener list of the register event on the process-wide emitter
(modelled from the spec: the emitter is not under src; each on call appends
the listener, each off call removes the occurrences of that listener), and a
fresh identity counter for newly created callbacks. -/
structure StaticState where
  factoryRegistration : List (FactoryFn × RegCallback)
  registerListeners : List RegCallback
  nextCid : Nat
deriving DecidableEq

/-- Looks up the memoized callback stored for a factory identity. -/
def lookupCallback (t : List (FactoryFn × RegCallback)) (f : FactoryFn) :
    Option RegCallback :=
  (t.find? (fun p => p.1 == f)).map (fun p => p.2)

/-- Embeds static `register(Factory)`, lines 143 to 153: when no callback is
memoized for the factory identity, creates one and stores it; then always
subscribes the memoized callback to the register event, so a repeated call
attaches an additional subscription of the same callback. -/
def staticRegister (st : StaticState) (f : FactoryFn) : StaticState :=
  let st1 :=
    match lookupCallback st.factoryRegistration f with
    | some _ => st
    | none =>
      { st with
        factoryRegistration :=
          st.factoryRegistration ++ [(f, { cid := st.nextCid, factory := f })]
        nextCid := st.nextCid + 1 }
  match lookupCallback st1.factoryRegistration f with
  | some cb => { st1 with registerListeners := st1.registerListeners ++ [cb] }
  | none => st1

/-- Embeds static `unregister(Factory)`, lines 155 to 161: when a callback is
memoized for the factory identity, removes its subscription from the register
event; otherwise does nothing. -/
def staticUnregister (st : StaticState) (f : FactoryFn) : StaticState :=
  match lookupCallback st.factoryRegistration f with
  | some cb =>
    { st with
      registerListeners := st.registerListeners.filter (fun c => !(c == cb)) }
  | none => st

/-- The mode the instance is left in by a method run, returned or thrown. -/
def modeAfter (r : PRes) : String := (stateOf r).config.mode


/-! Preservation lemmas: which fields the lifecycle methods leave untouched. -/

instance instDecEqPRes : DecidableEq (Except (PErr × PollyState) PollyState) :=
  fun a b =>
    match a, b with
    | Except.ok x, Except.ok y =>
      match decEq x y with
      | isTrue h => isTrue (h ▸ rfl)
      | isFalse h => isFalse (fun hh => h (Except.ok.inj hh))
    | Except.error x, Except.error y =>
      match decEq x y with
      | isTrue h => isTrue (h ▸ rfl)
      | isFalse h => isFalse (fun hh => h (Except.error.inj hh))
    | Except.ok _, Except.error _ => isFalse (fun hh => Except.noConfusion hh)
    | Except.error _, Except.ok _ => isFalse (fun hh => Except.noConfusion hh)

theorem disconnectFrom_config (s : PollyState) (nf : NameOrFactory) :
    (disconnectFrom s nf).config = s.config := by
  cases h : lookupAdapter s.adapters (resolveName nf) <;>
    simp [disconnectFrom, h]

theorem disconnectFrom_persister (s : PollyState) (nf : NameOrFactory) :
    (disconnectFrom s nf).persister = s.persister := by
  cases h : lookupAdapter s.adapters (resolveName nf) <;>
    simp [disconnectFrom, h]

theorem disconnect_config (s : PollyState) : (disconnect s).config = s.config := by
  unfold disconnect
  generalize s.adapters = l
  induction l generalizing s with
  | nil => rfl
  | cons a t ih => rw [List.foldl_cons, ih, disconnectFrom_config]

theorem disconnect_persister (s : PollyState) :
    (disconnect s).persister = s.persister := by
  unfold disconnect
  generalize s.adapters = l
  induction l generalizing s with
  | nil => rfl
  | cons a t ih => rw [List.foldl_cons, ih, disconnectFrom_persister]

theorem connectTo_persister (s : PollyState) (nf : NameOrFactory) :
    (stateOf (connectTo s nf)).persister = s.persister := by
  cases nf with
  | byName n =>
    by_cases h : containerHas s.container ("adapter:" ++ n) = true
    · simp [connectTo, resolveName, h, stateOf, disconnectFrom_persister]
    · simp [connectTo, resolveName, h, stateOf]
  | byFactory f =>
    by_cases h :
        containerHas (containerRegister s.container f) ("adapter:" ++ f.fname) = true
    · simp [connectTo, resolveName, h, stateOf, disconnectFrom_persister]
    · simp [connectTo, resolveName, h, stateOf]

theorem connectAll_persister (l : List NameOrFactory) (s : PollyState) :
    (stateOf (connectAll s l)).persister = s.persister := by
  induction l generalizing s with
  | nil => rfl
  | cons a t ih =>
    cases h : connectTo s a with
    | ok s1 =>
      have hp := connectTo_persister s a
      rw [h] at hp
      simp only [connectAll, h]
      rw [ih s1]
      exact hp
    | error e =>
      have hp := connectTo_persister s a
      rw [h] at hp
      simp only [connectAll, h]
      exact hp

theorem connectTo_error_msg (s : PollyState) (nf : NameOrFactory) (e : PErr)
    (s' : PollyState) (h : connectTo s nf = Except.error (e, s')) :
    ∃ nm, e = PErr.validation (VMsg.adapterNotRegistered nm) := by
  cases nf with
  | byName n =>
    by_cases hc : containerHas s.container ("adapter:" ++ n) = true
    · simp [connectTo, resolveName, hc] at h
    · simp [connectTo, resolveName, hc] at h
      exact ⟨n, h.1.symm⟩
  | byFactory f =>
    by_cases hc :
        containerHas (containerRegister s.container f) ("adapter:" ++ f.fname) = true
    · simp [connectTo, resolveName, hc] at h
    · simp [connectTo, resolveName, hc] at h
      exact ⟨f.fname, h.1.symm⟩

theorem connectAll_error_msg (l : List NameOrFactory) (s : PollyState) (e : PErr)
    (s' : PollyState) (h : connectAll s l = Except.error (e, s')) :
    ∃ nm, e = PErr.validation (VMsg.adapterNotRegistered nm) := by
  induction l generalizing s with
  | nil => exact absurd h (by simp [connectAll])
  | cons a t ih =>
    simp only [connectAll] at h
    cases hc : connectTo s a with
    | ok s1 =>
      rw [hc] at h
      exact ih s1 h
    | error e1 =>
      rw [hc] at h
      have h2 := Except.error.inj h
      rw [h2] at hc
      exact connectTo_error_msg s a e s' hc

theorem handlePersister_error_msg (s : PollyState) (po : Option NameOrFactory)
    (e : PErr) (s' : PollyState)
    (h : handlePersister s po = Except.error (e, s')) :
    ∃ nm, e = PErr.validation (VMsg.persisterNotRegistered nm) := by
  cases po with
  | none => exact absurd h (by simp [handlePersister])
  | some pnf =>
    cases pnf with
    | byName n =>
      by_cases h0 : n = ""
      · simp [handlePersister, h0] at h
      · cases hl : containerLookup s.container ("persister:" ++ n) with
        | some f => simp [handlePersister, h0, hl] at h
        | none =>
          simp [handlePersister, h0, hl] at h
          exact ⟨n, h.1.symm⟩
    | byFactory f =>
      cases hl : containerLookup (containerRegister s.container f)
          ("persister:" ++ f.fname) with
      | some g => simp [handlePersister, hl] at h
      | none =>
        simp [handlePersister, hl] at h
        exact ⟨f.fname, h.1.symm⟩

theorem handlePersister_none (s : PollyState) :
    handlePersister s none = Except.ok s := rfl

/-! Claim C1 -/

/-- A concrete instance in REPLAY mode whose persister instance rejects its
persist operation. -/
def c1State : PollyState :=
  { config := { mode := "REPLAY", adapters := [],
                persister := some (NameOrFactory.byName "fs") }
    container := [{ capability := "persister", fname := "fs", persistFails := true }]
    adapters := []
    persister := some { iid := 0, persistFails := true }
    requests := []
    pausedMode := none
    nextId := 1
    events := [] }

/-- Claim C1, counterexample: on a concrete instance in REPLAY mode whose
persist rejects, stop() does propagate the failure, but the state it leaves
behind still has mode REPLAY — the flip to STOPPED does not occur, because
the rejected await aborts stop() before the assignment line runs. This
refutes the claim that the mode is nevertheless set to STOPPED before the
failure surfaces. -/
theorem stop_persist_fail_cex :
    stop c1State = Except.error (PErr.persistenceFailure,
      { c1State with events := [Ev.loggerDisconnect, Ev.persistCall 0] }) ∧
    modeAfter (stop c1State) = "REPLAY" ∧ modeAfter (stop c1State) ≠ "STOPPED" := by
  decide

/-- Claim C1, amended: for every instance not already stopped whose persister
instance rejects persist, stop() propagates the persistence failure to its
caller, and the mode flip does not occur — the state at the throw still holds
the pre-stop mode. -/
theorem stop_persist_fail_keeps_mode (s : PollyState) (p : PersisterInst)
    (hmode : ¬ (s.config.mode = "STOPPED")) (hp : s.persister = some p)
    (hf : p.persistFails = true) :
    ∃ s', stop s = Except.error (PErr.persistenceFailure, s') ∧
      s'.config.mode = s.config.mode := by
  unfold stop
  rw [if_neg hmode]
  have hdp : (disconnect s).persister = some p := by
    rw [disconnect_persister, hp]
  simp only [hdp, hf]
  exact ⟨_, rfl, by simp [disconnect_config]⟩

/-- Claim C1, witness for the amended theorem at the concrete instance. -/
theorem stop_persist_fail_keeps_mode_w :
    ∃ s', stop c1State = Except.error (PErr.persistenceFailure, s') ∧
      s'.config.mode = c1State.config.mode :=
  stop_persist_fail_keeps_mode c1State { iid := 0, persistFails := true }
    (by decide) (by decide) (by decide)

/-! Claim C2 -/

/-- Claim C2: refuted as stated — the mode setter cannot normalize anything,
because its body evaluates the undeclared identifier `uppercaseMode`; every
invocation, including the legal lowercase name record and the legal
case-normalized name RECORD, faults with a ReferenceError instead of either
succeeding or throwing the enumerating validation error. The claim is right
about the intent (the assertion message and the assignment both expect a
case-normalized `uppercaseMode`), so this is a defect of the code, not of
the claim. -/
theorem set_mode_always_faults (s : PollyState) (m : String) :
    setMode s m = Except.error (PErr.refError "uppercaseMode", s) ∧
    setMode s "record" = Except.error (PErr.refError "uppercaseMode", s) ∧
    record s = Except.error (PErr.refError "uppercaseMode", s) :=
  ⟨rfl, rfl, rfl⟩

/-! Claim C3 -/

/-- Claim C3: STOPPED is terminal. From a state whose mode is STOPPED, none
of the public operations record, replay, pause, play, configure, stop leaves
the instance in a mode other than STOPPED: configure refuses to run while
stopped, stop is a no-op, and every path through the mode setter faults on
the undeclared identifier before any assignment, leaving the mode in place. -/
theorem stopped_mode_is_terminal (s : PollyState) (cfg : ConfigLayer)
    (h : s.config.mode = "STOPPED") :
    modeAfter (record s) = "STOPPED" ∧
    modeAfter (replay s) = "STOPPED" ∧
    modeAfter (pause s) = "STOPPED" ∧
    modeAfter (play s) = "STOPPED" ∧
    modeAfter (configure s cfg) = "STOPPED" ∧
    modeAfter (stop s) = "STOPPED" := by
  refine ⟨?_, ?_, ?_, ?_, ?_, ?_⟩
  · simp [record, setMode, modeAfter, stateOf, h]
  · simp [replay, setMode, modeAfter, stateOf, h]
  · simp [pause, setMode, modeAfter, stateOf, h]
  · cases hp : s.pausedMode with
    | none => simp [play, hp, modeAfter, stateOf, h]
    | some m =>
      by_cases hm : m = ""
      · simp [play, hp, hm, modeAfter, stateOf, h]
      · simp [play, hp, hm, setMode, modeAfter, stateOf, h]
  · by_cases hr : s.requests.length = 0
    · simp [configure, hr, h, modeAfter, stateOf]
    · simp [configure, hr, modeAfter, stateOf, h]
  · simp [stop, h, modeAfter, stateOf]

/-- A concrete stopped instance. -/
def c3State : PollyState :=
  { config := { mode := "STOPPED", adapters := [], persister := none }
    container := []
    adapters := []
    persister := none
    requests := []
    pausedMode := none
    nextId := 0
    events := [] }

/-- Claim C3, witness at a concrete stopped instance. -/
theorem stopped_mode_is_terminal_w :
    modeAfter (record c3State) = "STOPPED" ∧
    modeAfter (replay c3State) = "STOPPED" ∧
    modeAfter (pause c3State) = "STOPPED" ∧
    modeAfter (play c3State) = "STOPPED" ∧
    modeAfter (configure c3State {}) = "STOPPED" ∧
    modeAfter (stop c3State) = "STOPPED" :=
  stopped_mode_is_terminal c3State {} (by decide)

/-! Claim C4 -/

/-- The effectful tail of `configure` throws only the two lookup assertions. -/
theorem configure_main_error_shape (s2 : PollyState) (l : List NameOrFactory)
    (po : Option NameOrFactory) (e : PErr) (s' : PollyState)
    (h : configureMain s2 l po = Except.error (e, s')) :
    (∃ nm, e = PErr.validation (VMsg.adapterNotRegistered nm)) ∨
    (∃ nm, e = PErr.validation (VMsg.persisterNotRegistered nm)) := by
  unfold configureMain at h
  cases hca : connectAll s2 l with
  | error e1 =>
    simp only [hca] at h
    have h2 := Except.error.inj h
    rw [h2] at hca
    exact Or.inl (connectAll_error_msg l s2 e s' hca)
  | ok s3 =>
    simp only [hca] at h
    exact Or.inr (handlePersister_error_msg s3 po e s' h)

/-- Claim C4: configure raises the validation error naming the violated
precondition — the requests precondition when any request has been handled,
else the running precondition when the mode is STOPPED — and in both cases
throws with the state unchanged (no effect performed); when both
preconditions hold, any error configure throws is one of the two lookup
assertions, never a precondition error. -/
theorem configure_preconditions (s : PollyState) (cfg : ConfigLayer) :
    (¬ (s.requests.length = 0) →
      configure s cfg =
        Except.error (PErr.validation VMsg.configureAfterRequests, s)) ∧
    (s.requests.length = 0 → s.config.mode = "STOPPED" →
      configure s cfg =
        Except.error (PErr.validation VMsg.configureWhileStopped, s)) ∧
    (s.requests.length = 0 → ¬ (s.config.mode = "STOPPED") →
      ∀ e s', configure s cfg = Except.error (e, s') →
        e ≠ PErr.validation VMsg.configureAfterRequests ∧
        e ≠ PErr.validation VMsg.configureWhileStopped) := by
  refine ⟨?_, ?_, ?_⟩
  · intro hr
    simp [configure, hr]
  · intro hr hm
    simp [configure, hr, hm]
  · intro hr hm e s' h
    unfold configure at h
    rw [if_neg (not_not_intro hr), if_neg hm] at h
    have := configure_main_error_shape _ _ _ e s' h
    rcases this with ⟨nm, rfl⟩ | ⟨nm, rfl⟩ <;> exact ⟨by simp, by simp⟩

/-- A concrete instance that has already handled one request. -/
def c4ReqState : PollyState :=
  { config := { mode := "REPLAY", adapters := [], persister := none }
    container := []
    adapters := []
    persister := none
    requests := [{ rid := 0, outcome := Outcome.resolved }]
    pausedMode := none
    nextId := 1
    events := [] }

/-- A concrete instance with no requests, in REPLAY mode, empty container. -/
def c4OkState : PollyState :=
  { config := { mode := "REPLAY", adapters := [], persister := none }
    container := []
    adapters := []
    persister := none
    requests := []
    pausedMode := none
    nextId := 0
    events := [] }

/-- Claim C4, witness: the three parts at concrete instances — one that has
handled a request, one that is stopped, and one running instance configured
with an unregistered adapter name. -/
theorem configure_preconditions_w :
    configure c4ReqState {} =
      Except.error (PErr.validation VMsg.configureAfterRequests, c4ReqState) ∧
    configure c3State {} =
      Except.error (PErr.validation VMsg.configureWhileStopped, c3State) ∧
    (PErr.validation (VMsg.adapterNotRegistered "x") ≠
       PErr.validation VMsg.configureAfterRequests ∧
     PErr.validation (VMsg.adapterNotRegistered "x") ≠
       PErr.validation VMsg.configureWhileStopped) :=
  ⟨(configure_preconditions c4ReqState {}).1 (by decide),
   (configure_preconditions c3State {}).2.1 (by decide) (by decide),
   (configure_preconditions c4OkState
       { adapters := some [NameOrFactory.byName "x"] }).2.2 (by decide) (by decide)
     (PErr.validation (VMsg.adapterNotRegistered "x"))
     { c4OkState with
       config := { mode := "REPLAY", adapters := [NameOrFactory.byName "x"],
                   persister := none } }
     (by decide)⟩

/-! Claim C5 -/

theorem find?_append_of_none {α : Type} (p : α → Bool) (l1 l2 : List α)
    (h : l1.find? p = none) : (l1 ++ l2).find? p = l2.find? p := by
  induction l1 with
  | nil => rfl
  | cons a t ih =>
    cases hpa : p a with
    | true => simp [List.find?, hpa] at h
    | false =>
      simp only [List.find?, List.cons_append, hpa] at h ⊢
      exact ih h

theorem find?_none_filter_nil {α : Type} (p : α → Bool) (l : List α)
    (h : l.find? p = none) : l.filter p = [] := by
  induction l with
  | nil => rfl
  | cons a t ih =>
    cases hpa : p a with
    | true => simp [List.find?, hpa] at h
    | false =>
      simp only [List.find?, hpa] at h
      simp [List.filter, hpa, ih h]

theorem find?_none_filter_not {α : Type} (p : α → Bool) (l : List α)
    (h : l.find? p = none) : l.filter (fun a => !(p a)) = l := by
  induction l with
  | nil => rfl
  | cons a t ih =>
    cases hpa : p a with
    | true => simp [List.find?, hpa] at h
    | false =>
      simp only [List.find?, hpa] at h
      simp [List.filter, hpa, ih h]

theorem lookupAdapter_append_single (l : List (String × Nat)) (nm : String)
    (i : Nat) (h : l.find? (fun p => p.1 == nm) = none) :
    lookupAdapter (l ++ [(nm, i)]) nm = some i := by
  unfold lookupAdapter
  rw [find?_append_of_none _ _ _ h]
  simp [List.find?]

theorem lookupAdapter_none_find? (l : List (String × Nat)) (nm : String)
    (h : lookupAdapter l nm = none) : l.find? (fun p => p.1 == nm) = none := by
  unfold lookupAdapter at h
  cases hf : l.find? (fun p => p.1 == nm) with
  | none => rfl
  | some q => rw [hf] at h; simp at h

/-- Claim C5: connecting twice to a registered adapter name leaves exactly
one live instance under that name; the second instance is distinct from the
first; the events show the first instance connected, then disconnected
exactly once, then the second connected — the disconnect of the first
strictly precedes the connect of the second, and the stored map holds exactly
one entry under the name at each returned state. -/
theorem connectTo_twice_single_instance (s : PollyState) (nm : String)
    (hreg : containerHas s.container ("adapter:" ++ nm) = true)
    (hnone : lookupAdapter s.adapters nm = none) :
    ∃ s1 s2,
      connectTo s (NameOrFactory.byName nm) = Except.ok s1 ∧
      connectTo s1 (NameOrFactory.byName nm) = Except.ok s2 ∧
      s1.adapters = s.adapters ++ [(nm, s.nextId)] ∧
      s2.adapters = s.adapters ++ [(nm, s.nextId + 1)] ∧
      s.nextId + 1 ≠ s.nextId ∧
      s2.events = s.events ++
        [Ev.adapterConnect nm s.nextId,
         Ev.adapterDisconnect nm s.nextId,
         Ev.adapterConnect nm (s.nextId + 1)] ∧
      s2.adapters.filter (fun p => p.1 == nm) = [(nm, s.nextId + 1)] ∧
      List.count (Ev.adapterDisconnect nm s.nextId) s2.events =
        List.count (Ev.adapterDisconnect nm s.nextId) s.events + 1 := by
  have hfind := lookupAdapter_none_find? s.adapters nm hnone
  have hd1 : disconnectFrom s (NameOrFactory.byName nm) = s := by
    simp [disconnectFrom, resolveName, hnone]
  have h1 : connectTo s (NameOrFactory.byName nm) = Except.ok
      { s with nextId := s.nextId + 1
               events := s.events ++ [Ev.adapterConnect nm s.nextId]
               adapters := s.adapters ++ [(nm, s.nextId)] } := by
    simp [connectTo, resolveName, hreg, hd1]
  have hl1 : lookupAdapter (s.adapters ++ [(nm, s.nextId)]) nm = some s.nextId :=
    lookupAdapter_append_single s.adapters nm s.nextId hfind
  have hd2 : disconnectFrom
      { s with nextId := s.nextId + 1
               events := s.events ++ [Ev.adapterConnect nm s.nextId]
               adapters := s.adapters ++ [(nm, s.nextId)] }
      (NameOrFactory.byName nm) =
      { s with nextId := s.nextId + 1
               events := (s.events ++ [Ev.adapterConnect nm s.nextId]) ++
                 [Ev.adapterDisconnect nm s.nextId]
               adapters := s.adapters } := by
    simp only [disconnectFrom, resolveName, hl1]
    have hfil : (s.adapters ++ [(nm, s.nextId)]).filter (fun p => !(p.1 == nm)) =
        s.adapters := by
      rw [List.filter_append, find?_none_filter_not _ _ hfind]
      simp
    rw [hfil]
  have h2 : connectTo
      { s with nextId := s.nextId + 1
               events := s.events ++ [Ev.adapterConnect nm s.nextId]
               adapters := s.adapters ++ [(nm, s.nextId)] }
      (NameOrFactory.byName nm) = Except.ok
      { s with nextId := s.nextId + 1 + 1
               events := s.events ++
                 [Ev.adapterConnect nm s.nextId,
                  Ev.adapterDisconnect nm s.nextId,
                  Ev.adapterConnect nm (s.nextId + 1)]
               adapters := s.adapters ++ [(nm, s.nextId + 1)] } := by
    simp only [connectTo, resolveName, hreg, hd2]
    simp
  refine ⟨_, _, h1, h2, rfl, rfl, by simp, rfl, ?_, ?_⟩
  · show (s.adapters ++ [(nm, s.nextId + 1)]).filter (fun p => p.1 == nm) =
      [(nm, s.nextId + 1)]
    rw [List.filter_append, find?_none_filter_nil _ _ hfind]
    simp
  · show List.count (Ev.adapterDisconnect nm s.nextId)
        (s.events ++ [Ev.adapterConnect nm s.nextId,
          Ev.adapterDisconnect nm s.nextId,
          Ev.adapterConnect nm (s.nextId + 1)]) =
      List.count (Ev.adapterDisconnect nm s.nextId) s.events + 1
    rw [List.count_append]
    simp [List.count_cons]

/-- A concrete instance with one registered adapter factory named x and no
connected adapters. -/
def c5State : PollyState :=
  { config := { mode := "REPLAY", adapters := [], persister := none }
    container := [{ capability := "adapter", fname := "x", persistFails := false }]
    adapters := []
    persister := none
    requests := []
    pausedMode := none
    nextId := 0
    events := [] }

/-- Claim C5, witness at the concrete instance. -/
theorem connectTo_twice_single_instance_w :
    ∃ s1 s2,
      connectTo c5State (NameOrFactory.byName "x") = Except.ok s1 ∧
      connectTo s1 (NameOrFactory.byName "x") = Except.ok s2 ∧
      s1.adapters = c5State.adapters ++ [("x", c5State.nextId)] ∧
      s2.adapters = c5State.adapters ++ [("x", c5State.nextId + 1)] ∧
      c5State.nextId + 1 ≠ c5State.nextId ∧
      s2.events = c5State.events ++
        [Ev.adapterConnect "x" c5State.nextId,
         Ev.adapterDisconnect "x" c5State.nextId,
         Ev.adapterConnect "x" (c5State.nextId + 1)] ∧
      s2.adapters.filter (fun p => p.1 == "x") = [("x", c5State.nextId + 1)] ∧
      List.count (Ev.adapterDisconnect "x" c5State.nextId) s2.events =
        List.count (Ev.adapterDisconnect "x" c5State.nextId) c5State.events + 1 :=
  connectTo_twice_single_instance c5State "x" (by decide) (by decide)

/-! Claim C6 -/

/-- Claim C6: flush settles successfully whatever the settlement of the
individual completions is (each is wrapped so both a fulfilled and a rejected
completion feed a resolved promise into the conjunction), it awaits exactly
the requests present in the sequence when the call begins, and a request
registered after the call began is not among the awaited ones. -/
theorem flush_settles_and_snapshots (s : PollyState) (d : Outcome)
    (hfresh : ∀ r ∈ s.requests, r.rid < s.nextId) :
    flush s = Except.ok () ∧
    flushAwaits s = s.requests ∧
    (registerRequest s d).2 ∉ flushAwaits s := by
  refine ⟨?_, rfl, ?_⟩
  · unfold flush promiseAll
    rw [if_pos]
    rw [List.all_eq_true]
    intro o ho
    rw [List.mem_map] at ho
    obtain ⟨r, hr, rfl⟩ := ho
    cases r.outcome <;> rfl
  · intro hmem
    have := hfresh _ hmem
    simp [registerRequest] at this

/-- A concrete instance holding one request whose completion rejects and one
whose completion fulfills. -/
def c6State : PollyState :=
  { config := { mode := "REPLAY", adapters := [], persister := none }
    container := []
    adapters := []
    persister := none
    requests := [{ rid := 0, outcome := Outcome.rejected },
                 { rid := 1, outcome := Outcome.resolved }]
    pausedMode := none
    nextId := 2
    events := [] }

/-- Claim C6, witness at a concrete instance with a rejecting completion. -/
theorem flush_settles_and_snapshots_w :
    flush c6State = Except.ok () ∧
    flushAwaits c6State = c6State.requests ∧
    (registerRequest c6State Outcome.resolved).2 ∉ flushAwaits c6State :=
  flush_settles_and_snapshots c6State Outcome.resolved (by decide)

/-! Claim C7 -/

/-- A concrete running instance with one connected adapter and no persister. -/
def c7State : PollyState :=
  { config := { mode := "REPLAY", adapters := [NameOrFactory.byName "a"],
                persister := none }
    container := [{ capability := "adapter", fname := "a", persistFails := false }]
    adapters := [("a", 0)]
    persister := none
    requests := []
    pausedMode := none
    nextId := 1
    events := [] }

/-- The state the first stop() call on c7State leaves behind. -/
def c7After : PollyState :=
  { c7State with
    adapters := []
    events := [Ev.adapterDisconnect "a" 0, Ev.loggerDisconnect] }

/-- Claim C7: refuted by the code as written — on a concrete running
instance, a single stop() call performs the adapter and logger disconnects
and then faults with a ReferenceError at the mode flip (the setter evaluates
the undeclared `uppercaseMode`), so the mode never becomes STOPPED and the
stop event is never broadcast; because the mode is still not STOPPED, a
second stop() call is not a no-op but repeats the shutdown side effects (the
logger disconnect is performed a second time). The claim is right about the
intent (the stop body plainly means to flip the mode and then emit), so this
is a defect of the code, not of the claim. -/
theorem stop_faults_not_idempotent :
    stop c7State = Except.error (PErr.refError "uppercaseMode", c7After) ∧
    c7After.config.mode = "REPLAY" ∧
    Ev.stopEmit ∉ c7After.events ∧
    List.count Ev.loggerDisconnect (stateOf (stop c7After)).events = 2 := by
  decide

/-! Claim C8 -/

/-- A concrete running instance in REPLAY mode with no pause snapshot. -/
def c8State : PollyState :=
  { config := { mode := "REPLAY", adapters := [], persister := none }
    container := []
    adapters := []
    persister := none
    requests := []
    pausedMode := none
    nextId := 0
    events := [] }

/-- Claim C8: refuted by the code as written — pause() on a concrete REPLAY
instance does save the current mode into the paused snapshot, but then faults
with a ReferenceError at the PASSTHROUGH assignment (the setter evaluates the
undeclared `uppercaseMode`), so the mode remains REPLAY instead of becoming
PASSTHROUGH; play() on the resulting state faults the same way instead of
restoring, while play() with no snapshot is indeed a no-op. The claim is
right about the intent of the pause and play bodies, so this is a defect of
the code, not of the claim. -/
theorem pause_faults_before_passthrough :
    pause c8State = Except.error (PErr.refError "uppercaseMode",
      { c8State with pausedMode := some "REPLAY" }) ∧
    modeAfter (pause c8State) = "REPLAY" ∧
    modeAfter (pause c8State) ≠ "PASSTHROUGH" ∧
    play { c8State with pausedMode := some "REPLAY" } =
      Except.error (PErr.refError "uppercaseMode",
        { c8State with pausedMode := some "REPLAY" }) ∧
    play c8State = Except.ok c8State := by
  decide

/-! Claim C9 -/

theorem lookupCallback_none_find? (t : List (FactoryFn × RegCallback))
    (f : FactoryFn) (h : lookupCallback t f = none) :
    t.find? (fun p => p.1 == f) = none := by
  unfold lookupCallback at h
  cases hf : t.find? (fun p => p.1 == f) with
  | none => rfl
  | some q => rw [hf] at h; simp at h

theorem lookupCallback_append_single (t : List (FactoryFn × RegCallback))
    (f : FactoryFn) (cb : RegCallback)
    (h : t.find? (fun p => p.1 == f) = none) :
    lookupCallback (t ++ [(f, cb)]) f = some cb := by
  unfold lookupCallback
  rw [find?_append_of_none _ _ _ h]
  simp [List.find?]

/-- Claim C9: the static registration API memoizes exactly one installation
callback per factory identity — registering the same factory twice leaves a
single table entry holding a single callback — yet each call appends a fresh
subscription of that same callback to the register-event listener list, so
after two calls the callback is subscribed twice; unregister removes the
memoized callback's subscriptions when the factory was previously registered
and leaves the whole static state untouched otherwise. -/
theorem static_register_dup_subscription (st : StaticState) (f g : FactoryFn)
    (hf : lookupCallback st.factoryRegistration f = none)
    (hfresh : ∀ c ∈ st.registerListeners, c.cid < st.nextCid)
    (hg : lookupCallback st.factoryRegistration g = none) :
    (staticRegister (staticRegister st f) f).factoryRegistration =
      st.factoryRegistration ++ [(f, { cid := st.nextCid, factory := f })] ∧
    (staticRegister (staticRegister st f) f).factoryRegistration.filter
      (fun p => p.1 == f) = [(f, { cid := st.nextCid, factory := f })] ∧
    (staticRegister (staticRegister st f) f).registerListeners =
      st.registerListeners ++
        [{ cid := st.nextCid, factory := f }, { cid := st.nextCid, factory := f }] ∧
    List.count ({ cid := st.nextCid, factory := f } : RegCallback)
      (staticRegister (staticRegister st f) f).registerListeners = 2 ∧
    List.count ({ cid := st.nextCid, factory := f } : RegCallback)
      (staticUnregister (staticRegister (staticRegister st f) f) f).registerListeners
      = 0 ∧
    staticUnregister st g = st := by
  have hfind := lookupCallback_none_find? _ f hf
  have hl1 : lookupCallback
      (st.factoryRegistration ++ [(f, { cid := st.nextCid, factory := f })]) f =
      some { cid := st.nextCid, factory := f } :=
    lookupCallback_append_single _ f _ hfind
  have h1 : staticRegister st f =
      { st with
        factoryRegistration :=
          st.factoryRegistration ++ [(f, { cid := st.nextCid, factory := f })]
        registerListeners :=
          st.registerListeners ++ [{ cid := st.nextCid, factory := f }]
        nextCid := st.nextCid + 1 } := by
    simp only [staticRegister, hf, hl1]
  have h2 : staticRegister (staticRegister st f) f =
      { st with
        factoryRegistration :=
          st.factoryRegistration ++ [(f, { cid := st.nextCid, factory := f })]
        registerListeners :=
          st.registerListeners ++
            [{ cid := st.nextCid, factory := f }, { cid := st.nextCid, factory := f }]
        nextCid := st.nextCid + 1 } := by
    rw [h1]
    simp only [staticRegister, hl1]
    simp
  have hnotmem : ({ cid := st.nextCid, factory := f } : RegCallback) ∉
      st.registerListeners := by
    intro hmem
    have := hfresh _ hmem
    simp at this
  refine ⟨?_, ?_, ?_, ?_, ?_, ?_⟩
  · rw [h2]
  · rw [h2]
    show (st.factoryRegistration ++
        [(f, ({ cid := st.nextCid, factory := f } : RegCallback))]).filter
        (fun p => p.1 == f) = _
    rw [List.filter_append, find?_none_filter_nil _ _ hfind]
    simp
  · rw [h2]
  · rw [h2]
    show List.count _ (st.registerListeners ++ _) = 2
    rw [List.count_append, List.count_eq_zero.mpr hnotmem]
    simp [List.count_cons]
  · rw [h2]
    unfold staticUnregister
    simp only [hl1]
    rw [List.count_eq_zero]
    intro hmem
    rw [List.mem_filter] at hmem
    simp at hmem
  · unfold staticUnregister
    rw [hg]

/-- A blank process-wide static state. -/
def c9Static : StaticState :=
  { factoryRegistration := [], registerListeners := [], nextCid := 0 }

/-- An adapter factory named x. -/
def c9F : FactoryFn := { capability := "adapter", fname := "x", persistFails := false }

/-- An adapter factory named y. -/
def c9G : FactoryFn := { capability := "adapter", fname := "y", persistFails := false }

/-- Claim C9, witness at the blank static state with two factories. -/
theorem static_register_dup_subscription_w :
    (staticRegister (staticRegister c9Static c9F) c9F).factoryRegistration =
      c9Static.factoryRegistration ++
        [(c9F, { cid := c9Static.nextCid, factory := c9F })] ∧
    (staticRegister (staticRegister c9Static c9F) c9F).factoryRegistration.filter
      (fun p => p.1 == c9F) = [(c9F, { cid := c9Static.nextCid, factory := c9F })] ∧
    (staticRegister (staticRegister c9Static c9F) c9F).registerListeners =
      c9Static.registerListeners ++
        [{ cid := c9Static.nextCid, factory := c9F },
         { cid := c9Static.nextCid, factory := c9F }] ∧
    List.count ({ cid := c9Static.nextCid, factory := c9F } : RegCallback)
      (staticRegister (staticRegister c9Static c9F) c9F).registerListeners = 2 ∧
    List.count ({ cid := c9Static.nextCid, factory := c9F } : RegCallback)
      (staticUnregister (staticRegister (staticRegister c9Static c9F) c9F)
        c9F).registerListeners = 0 ∧
    staticUnregister c9Static c9G = c9Static :=
  static_register_dup_subscription c9Static c9F c9G (by decide) (by decide) (by decide)

/-! Claim C10 -/

/-- The effectful tail of `configure` with no persister entry leaves the
persister slot untouched, on the returned state and on the thrown state
alike. -/
theorem configureMain_persister_frame (s2 : PollyState) (l : List NameOrFactory) :
    (stateOf (configureMain s2 l none)).persister = s2.persister := by
  unfold configureMain
  cases hca : connectAll s2 l with
  | error e =>
    have hp := connectAll_persister l s2
    rw [hca] at hp
    simpa [stateOf] using hp
  | ok s3 =>
    have hp := connectAll_persister l s2
    rw [hca] at hp
    simpa [stateOf, handlePersister] using hp

/-- Claim C10: whenever the merged configuration carries no persister entry,
configure leaves the persister slot exactly as it was — whether configure
returns, throws a precondition error, or throws a lookup error part-way
through — so a persister instance created by an earlier configure survives a
later persister-less reconfiguration. -/
theorem configure_no_persister_frame (s : PollyState) (cfg : ConfigLayer)
    (h : (mergeConfigs DefaultConfig (cfgLayerOf s.config) cfg).persister = none) :
    (stateOf (configure s cfg)).persister = s.persister := by
  by_cases hr : s.requests.length = 0
  · by_cases hm : s.config.mode = "STOPPED"
    · simp [configure, hr, hm, stateOf]
    · unfold configure
      rw [if_neg (not_not_intro hr), if_neg hm]
      simp only [disconnect_config]
      rw [h, configureMain_persister_frame]
      simp [disconnect_persister]
  · simp [configure, hr, stateOf]

/-- A concrete instance holding a persister instance, whose resolved config
carries no persister entry. -/
def c10State : PollyState :=
  { config := { mode := "REPLAY", adapters := [], persister := none }
    container := []
    adapters := []
    persister := some { iid := 5, persistFails := false }
    requests := []
    pausedMode := none
    nextId := 6
    events := [] }

/-- Claim C10, witness: a persister-less reconfiguration of a concrete
instance keeps its existing persister instance. -/
theorem configure_no_persister_frame_w :
    (stateOf (configure c10State {})).persister = c10State.persister :=
  configure_no_persister_frame c10State {} (by decide)
